import Mathlib

/-
Shallow embedding of the Supabase REST client from src/odh/supabase.js.

Modelling conventions:
* A JS option field that may be absent, `null` or `undefined` is an `Option`;
  `none` covers all three (they take the same falsy code path).
* JS truthiness on strings (`""` is falsy) and on numbers (`0` is falsy) is
  modelled explicitly where the source tests a value with `if (x)` or `x || d`.
* `URLSearchParams` is an ordered list of key/value string pairs appended in
  program order; `params.toString()` serialises exactly those pairs, so URL
  level claims are stated on the pair list of a structured `Url`.
* `fetch` is a single-call oracle: each operation takes the function
  `fetch : Request -> FetchResult _` as an argument and inspects its result on
  the one request the source builds.  `FetchResult.abort` is a rejected fetch
  promise (transport failure); `FetchResult.ok p` is a response with
  `response.ok = true` whose `response.json()` outcome is `p`;
  `FetchResult.err st p` is a non-success response with status text `st` whose
  `response.json()` outcome is `p` (a thrown `Except.error`, in either
  position, is the JSON parse failure).
* Thrown JS errors are `Except.error` carrying the error message; the
  `catch` blocks of the source log and rethrow, which is the identity on the
  error, so they add nothing to the model.
* Response bodies are modelled at the shape the client inspects: row arrays
  for CRUD data, an `access_token` field for sign-in, and the
  `message` / `msg` / `error_description` fields for error bodies.
-/

namespace Supabase

/-- A JS primitive value usable as a filter value or record field
(string, number or boolean, per the Filter Set data model). -/
inductive Value
  | str (s : String)
  | num (n : Int)
  | bool (b : Bool)
deriving DecidableEq

/-- JS string coercion as performed by a template literal. -/
def Value.render : Value → String
  | Value.str s => s
  | Value.num n => toString n
  | Value.bool b => toString b

/-- A backend record (row): an opaque column-to-value mapping. -/
abbrev Rec := List (String × Value)

/-- The fixed header object built by the constructor; the source only ever
stores these four keys. -/
structure Headers where
  apikey : String
  authorization : String
  contentType : String
  prefer : String
deriving DecidableEq

/-- Client state: base URL, API key and the current header object. -/
structure SupabaseClient where
  supabaseUrl : String
  supabaseKey : String
  headers : Headers
deriving DecidableEq

/-- Constructor `new SupabaseClient(supabaseUrl, supabaseKey)`. -/
def mkSupabaseClient (supabaseUrl supabaseKey : String) : SupabaseClient :=
  { supabaseUrl := supabaseUrl
    supabaseKey := supabaseKey
    headers :=
      { apikey := supabaseKey
        authorization := "Bearer " ++ supabaseKey
        contentType := "application/json"
        prefer := "return=representation" } }

/-- JS `x || d` on an optional string: `none` (absent/undefined/null) and the
empty string are falsy and fall through to the default. -/
def jsOrStr (v : Option String) (d : String) : String :=
  match v with
  | some s => if s = "" then d else s
  | none => d

/-- The `order` option object `{column, direction}`; either field may be
missing. -/
structure OrderSpec where
  column : Option String
  direction : Option String
deriving DecidableEq

/-- The recognised query-option fields of the source (`filters`, `select`,
`order`, `limit`, `offset`). -/
structure QueryOptions where
  filters : Option (List (String × Value))
  select : Option String
  order : Option OrderSpec
  limit : Option Int
  offset : Option Int
deriving DecidableEq

/-- The empty options object. -/
def emptyOptions : QueryOptions :=
  { filters := none, select := none, order := none, limit := none, offset := none }

/-- A URL as the source assembles it: base path plus the `URLSearchParams`
content in append order. -/
structure Url where
  base : String
  params : List (String × String)
deriving DecidableEq

/-- HTTP method of a request. -/
inductive Method
  | get
  | post
  | patch
  | delete
deriving DecidableEq

/-- Request bodies the client serialises with `JSON.stringify`. -/
inductive ReqBody
  | one (r : Rec)
  | many (rs : List Rec)
  | authCreds (email password : String)
deriving DecidableEq

/-- The request descriptor handed to `fetch`. -/
structure Request where
  method : Method
  url : Url
  headers : Headers
  body : Option ReqBody
deriving DecidableEq

/-- The error-body fields the client reads on a non-success response. -/
structure ErrorBody where
  message : Option String
  msg : Option String
  error_description : Option String
deriving DecidableEq

/-- The sign-in response field the client reads. -/
structure AuthBody where
  access_token : Option String
deriving DecidableEq

/-- Outcome of one `fetch` call, as observed by the client code. -/
inductive FetchResult (δ : Type)
  | abort (e : String)
  | ok (parse : Except String δ)
  | err (statusText : String) (parse : Except String ErrorBody)

/-- The `k=eq.v` pairs appended for a filter object
(`Object.entries(filters).forEach(([key, value]) => params.append of key and eq.value over Object.entries)`). -/
def eqParams (filters : List (String × Value)) : List (String × String) :=
  filters.map (fun kv => (kv.1, "eq." ++ kv.2.render))

/-- Filter pairs of an optional `filters` option (`if (options.filters) ...`;
any object, even empty, is truthy). -/
def filterPairs (filters : Option (List (String × Value))) : List (String × String) :=
  match filters with
  | some fs => eqParams fs
  | none => []

/-- The `select` pair (`if (options.select)` appends it under the key `select`;
the empty string is falsy). -/
def selectPairs (sel : Option String) : List (String × String) :=
  match sel with
  | some s => if s = "" then [] else [("select", s)]
  | none => []

/-- The `order` pair (`if (options.order)` then column/direction each defaulted
with `||`). -/
def orderPairs (ord : Option OrderSpec) : List (String × String) :=
  match ord with
  | some o => [("order", jsOrStr o.column "id" ++ "." ++ jsOrStr o.direction "asc")]
  | none => []

/-- The `limit` pair (`if (options.limit)`; the number 0 is falsy). -/
def limitPairs (limit : Option Int) : List (String × String) :=
  match limit with
  | some n => if n = 0 then [] else [("limit", toString n)]
  | none => []

/-- The `offset` pair (`if (options.offset)`; the number 0 is falsy). -/
def offsetPairs (offset : Option Int) : List (String × String) :=
  match offset with
  | some n => if n = 0 then [] else [("offset", toString n)]
  | none => []

/-- Source `buildUrl(table, operation, options)`: for `select` the params are appended
in source order (filters, select, order, limit, offset); any other operation
yields the bare resource URL. -/
def SupabaseClient.buildUrl (c : SupabaseClient) (table operation : String)
    (options : QueryOptions) : Url :=
  let base := c.supabaseUrl ++ "/rest/v1/" ++ table
  if operation = "select" then
    { base := base
      params := filterPairs options.filters ++ selectPairs options.select
        ++ orderPairs options.order ++ limitPairs options.limit
        ++ offsetPairs options.offset }
  else
    { base := base, params := [] }

example :
    ((mkSupabaseClient "https://test.supabase.co" "test-key").buildUrl "trips" "select"
      { emptyOptions with
          filters := some [("user_id", Value.num 1), ("status", Value.str "active")] }).params
      = [("user_id", "eq.1"), ("status", "eq.active")] := by decide

example :
    ((mkSupabaseClient "https://test.supabase.co" "test-key").buildUrl "trips" "select"
      { emptyOptions with
          order := some ({ column := some "date", direction := some "desc" } : OrderSpec)
          limit := some 50 }).params
      = [("order", "date.desc"), ("limit", "50")] := by decide

/-- The request built by `read`: GET on `buildUrl(table, select, options)`
with the stored headers and no body. -/
def SupabaseClient.readRequest (c : SupabaseClient) (table : String)
    (options : QueryOptions) : Request :=
  { method := Method.get
    url := c.buildUrl table "select" options
    headers := c.headers
    body := none }

/-- Source `read(table, options)`.  The response classification mirrors the source:
`!response.ok` parses the body and throws
`Supabase Error: <error.message || response.statusText>`; a thrown JSON
parse error or a rejected fetch is rethrown by the catch block. -/
def SupabaseClient.read (c : SupabaseClient) (table : String) (options : QueryOptions)
    (fetch : Request → FetchResult (List Rec)) : Except String (List Rec) :=
  match fetch (c.readRequest table options) with
  | FetchResult.abort e => Except.error e
  | FetchResult.ok (Except.ok data) => Except.ok data
  | FetchResult.ok (Except.error e) => Except.error e
  | FetchResult.err st (Except.ok body) =>
      Except.error ("Supabase Error: " ++ jsOrStr body.message st)
  | FetchResult.err _ (Except.error e) => Except.error e

/-- The request built by `query`: the filters argument is spliced over the
options (`{...options, filters: filters}`) before `buildUrl`. -/
def SupabaseClient.queryRequest (c : SupabaseClient) (table : String)
    (filters : List (String × Value)) (options : QueryOptions) : Request :=
  { method := Method.get
    url := c.buildUrl table "select" { options with filters := some filters }
    headers := c.headers
    body := none }

/-- Source `query(table, filters, options)`. -/
def SupabaseClient.query (c : SupabaseClient) (table : String)
    (filters : List (String × Value)) (options : QueryOptions)
    (fetch : Request → FetchResult (List Rec)) : Except String (List Rec) :=
  match fetch (c.queryRequest table filters options) with
  | FetchResult.abort e => Except.error e
  | FetchResult.ok (Except.ok data) => Except.ok data
  | FetchResult.ok (Except.error e) => Except.error e
  | FetchResult.err st (Except.ok body) =>
      Except.error ("Supabase Error: " ++ jsOrStr body.message st)
  | FetchResult.err _ (Except.error e) => Except.error e

/-- Source `getById(table, id, options)`: `query` with filter `{id: id}` and
`{...options, limit: 1}`, then `results.length > 0 ? results[0] : null`;
the catch block rethrows query failures unchanged. -/
def SupabaseClient.getById (c : SupabaseClient) (table : String) (id : Value)
    (options : QueryOptions) (fetch : Request → FetchResult (List Rec)) :
    Except String (Option Rec) :=
  match c.query table [("id", id)] { options with limit := some 1 } fetch with
  | Except.error e => Except.error e
  | Except.ok results =>
      Except.ok (if h : 0 < results.length then some (results.get ⟨0, h⟩) else none)

/-- The request built by `insert`: POST on the bare resource URL with the
stored headers and the record as body. -/
def SupabaseClient.insertRequest (c : SupabaseClient) (table : String)
    (data : Rec) : Request :=
  { method := Method.post
    url := { base := c.supabaseUrl ++ "/rest/v1/" ++ table, params := [] }
    headers := c.headers
    body := some (ReqBody.one data) }

/-- Source `insert(table, data)`. -/
def SupabaseClient.insert (c : SupabaseClient) (table : String) (data : Rec)
    (fetch : Request → FetchResult (List Rec)) : Except String (List Rec) :=
  match fetch (c.insertRequest table data) with
  | FetchResult.abort e => Except.error e
  | FetchResult.ok (Except.ok result) => Except.ok result
  | FetchResult.ok (Except.error e) => Except.error e
  | FetchResult.err st (Except.ok body) =>
      Except.error ("Supabase Error: " ++ jsOrStr body.message st)
  | FetchResult.err _ (Except.error e) => Except.error e

/-- The request built by `insertMany`: POST with an array body. -/
def SupabaseClient.insertManyRequest (c : SupabaseClient) (table : String)
    (dataArray : List Rec) : Request :=
  { method := Method.post
    url := { base := c.supabaseUrl ++ "/rest/v1/" ++ table, params := [] }
    headers := c.headers
    body := some (ReqBody.many dataArray) }

/-- Source `insertMany(table, dataArray)`. -/
def SupabaseClient.insertMany (c : SupabaseClient) (table : String)
    (dataArray : List Rec) (fetch : Request → FetchResult (List Rec)) :
    Except String (List Rec) :=
  match fetch (c.insertManyRequest table dataArray) with
  | FetchResult.abort e => Except.error e
  | FetchResult.ok (Except.ok result) => Except.ok result
  | FetchResult.ok (Except.error e) => Except.error e
  | FetchResult.err st (Except.ok body) =>
      Except.error ("Supabase Error: " ++ jsOrStr body.message st)
  | FetchResult.err _ (Except.error e) => Except.error e

/-- The request built by `update`: PATCH on the resource URL carrying the
`k=eq.v` filter pairs (built inline in the source, same loop as `buildUrl`)
and the patch as body. -/
def SupabaseClient.updateRequest (c : SupabaseClient) (table : String)
    (filters : List (String × Value)) (data : Rec) : Request :=
  { method := Method.patch
    url := { base := c.supabaseUrl ++ "/rest/v1/" ++ table, params := eqParams filters }
    headers := c.headers
    body := some (ReqBody.one data) }

/-- Source `update(table, filters, data)`. -/
def SupabaseClient.update (c : SupabaseClient) (table : String)
    (filters : List (String × Value)) (data : Rec)
    (fetch : Request → FetchResult (List Rec)) : Except String (List Rec) :=
  match fetch (c.updateRequest table filters data) with
  | FetchResult.abort e => Except.error e
  | FetchResult.ok (Except.ok result) => Except.ok result
  | FetchResult.ok (Except.error e) => Except.error e
  | FetchResult.err st (Except.ok body) =>
      Except.error ("Supabase Error: " ++ jsOrStr body.message st)
  | FetchResult.err _ (Except.error e) => Except.error e

/-- Source `updateById(table, id, data)` — `return this.update(table, {id: id}, data)`. -/
def SupabaseClient.updateById (c : SupabaseClient) (table : String) (id : Value)
    (data : Rec) (fetch : Request → FetchResult (List Rec)) : Except String (List Rec) :=
  c.update table [("id", id)] data fetch

/-- The request built by `delete`: DELETE on the resource URL carrying the
`k=eq.v` filter pairs, no body. -/
def SupabaseClient.deleteRequest (c : SupabaseClient) (table : String)
    (filters : List (String × Value)) : Request :=
  { method := Method.delete
    url := { base := c.supabaseUrl ++ "/rest/v1/" ++ table, params := eqParams filters }
    headers := c.headers
    body := none }

/-- Source `delete(table, filters)`. -/
def SupabaseClient.delete (c : SupabaseClient) (table : String)
    (filters : List (String × Value)) (fetch : Request → FetchResult (List Rec)) :
    Except String (List Rec) :=
  match fetch (c.deleteRequest table filters) with
  | FetchResult.abort e => Except.error e
  | FetchResult.ok (Except.ok result) => Except.ok result
  | FetchResult.ok (Except.error e) => Except.error e
  | FetchResult.err st (Except.ok body) =>
      Except.error ("Supabase Error: " ++ jsOrStr body.message st)
  | FetchResult.err _ (Except.error e) => Except.error e

/-- Source `deleteById(table, id)` — `return this.delete(table, {id: id})`. -/
def SupabaseClient.deleteById (c : SupabaseClient) (table : String) (id : Value)
    (fetch : Request → FetchResult (List Rec)) : Except String (List Rec) :=
  c.delete table [("id", id)] fetch

/-- Source `setAuthToken(token)`: overwrite the stored Authorization header. -/
def SupabaseClient.setAuthToken (c : SupabaseClient) (token : String) : SupabaseClient :=
  { c with headers := { c.headers with authorization := "Bearer " ++ token } }

/-- The request built by `signIn`: POST to the password-grant endpoint with
the stored headers and the credentials body. -/
def SupabaseClient.signInRequest (c : SupabaseClient) (email password : String) : Request :=
  { method := Method.post
    url := { base := c.supabaseUrl ++ "/auth/v1/token?grant_type=password", params := [] }
    headers := c.headers
    body := some (ReqBody.authCreds email password) }

/-- Source `signIn(email, password)`: returns the result and the client state after
the call.  On a parsed success body, `if (result.access_token)` (the empty
string is falsy) rotates the Authorization header via `setAuthToken`; a
non-success response throws
`Supabase Auth Error: <error.error_description || error.msg || error.message || response.statusText>`. -/
def SupabaseClient.signIn (c : SupabaseClient) (email password : String)
    (fetch : Request → FetchResult AuthBody) : Except String AuthBody × SupabaseClient :=
  match fetch (c.signInRequest email password) with
  | FetchResult.abort e => (Except.error e, c)
  | FetchResult.ok (Except.ok result) =>
      (Except.ok result,
        match result.access_token with
        | some t => if t = "" then c else c.setAuthToken t
        | none => c)
  | FetchResult.ok (Except.error e) => (Except.error e, c)
  | FetchResult.err st (Except.ok body) =>
      (Except.error ("Supabase Auth Error: "
        ++ jsOrStr body.error_description (jsOrStr body.msg (jsOrStr body.message st))), c)
  | FetchResult.err _ (Except.error e) => (Except.error e, c)

/-- The request built by `signOut`: POST to the logout endpoint; the headers
are a copy of the stored headers (`{...this.headers}`) in which, when a truthy
explicit token is given, only Authorization is replaced. -/
def SupabaseClient.signOutRequest (c : SupabaseClient) (accessToken : Option String) : Request :=
  { method := Method.post
    url := { base := c.supabaseUrl ++ "/auth/v1/logout", params := [] }
    headers :=
      match accessToken with
      | some t => if t = "" then c.headers
          else { c.headers with authorization := "Bearer " ++ t }
      | none => c.headers
    body := none }

/-- Source `signOut(accessToken)`: on a received response — success, or non-success
whose error body parses (the warning is only logged) — the stored
Authorization header is reset to the anon key and nothing is thrown; a
rejected fetch, or the parse failure of a non-success body, is rethrown by
the catch block before the reset line runs, leaving the state unchanged. -/
def SupabaseClient.signOut (c : SupabaseClient) (accessToken : Option String)
    (fetch : Request → FetchResult Unit) : Except String Unit × SupabaseClient :=
  match fetch (c.signOutRequest accessToken) with
  | FetchResult.abort e => (Except.error e, c)
  | FetchResult.ok _ =>
      (Except.ok (),
        { c with headers := { c.headers with authorization := "Bearer " ++ c.supabaseKey } })
  | FetchResult.err _ (Except.ok _) =>
      (Except.ok (),
        { c with headers := { c.headers with authorization := "Bearer " ++ c.supabaseKey } })
  | FetchResult.err _ (Except.error e) => (Except.error e, c)

/-- Substring test used to state what an error message does not contain. -/
def strContains (s pat : String) : Bool :=
  (List.range (s.length + 1)).any
    (fun i => ((s.toList.drop i).take pat.toList.length) == pat.toList)

/-- Unfolded parameter list of a `select` URL, in the append order of the
source. -/
theorem buildUrl_select_params (c : SupabaseClient) (table : String) (o : QueryOptions) :
    (c.buildUrl table "select" o).params
      = filterPairs o.filters ++ selectPairs o.select ++ orderPairs o.order
        ++ limitPairs o.limit ++ offsetPairs o.offset := rfl

/-- Claim C3 (confirmed): `getById(table, id, options)` behaves exactly like
`query(table, ⟨id filter⟩, options with limit := 1)` followed by taking the
first element of the row sequence when it is non-empty and `none` (JS `null`)
when it is empty; in particular a zero-row result is `Except.ok none`, not an
error. -/
theorem getById_refines_query (c : SupabaseClient) (table : String) (id : Value)
    (options : QueryOptions) (fetch : Request → FetchResult (List Rec)) :
    c.getById table id options fetch
      = (c.query table [("id", id)] { options with limit := some 1 } fetch).map
          (fun results => results.head?) := by
  unfold SupabaseClient.getById
  cases hq : c.query table [("id", id)] { options with limit := some 1 } fetch with
  | error e => simp [Except.map]
  | ok results =>
    cases results with
    | nil => simp [Except.map]
    | cons r rs => simp [Except.map]

/-- Claim C4 (confirmed): `updateById(table, id, patch)` is literally
`update(table, ⟨id filter⟩, patch)` and `deleteById(table, id)` is literally
`delete(table, ⟨id filter⟩)`: for every fetch behaviour the result (and hence
the single request descriptor passed to fetch) coincides with the general
form, with no divergent edge-case handling. -/
theorem byId_forms_are_compositions (c : SupabaseClient) (table : String)
    (id : Value) (patch : Rec) :
    (∀ fetch, c.updateById table id patch fetch = c.update table [("id", id)] patch fetch)
    ∧ (∀ fetch, c.deleteById table id fetch = c.delete table [("id", id)] fetch)
    ∧ (∀ fetch, c.updateById table id patch fetch
          = match fetch (c.updateRequest table [("id", id)] patch) with
            | FetchResult.abort e => Except.error e
            | FetchResult.ok (Except.ok result) => Except.ok result
            | FetchResult.ok (Except.error e) => Except.error e
            | FetchResult.err st (Except.ok body) =>
                Except.error ("Supabase Error: " ++ jsOrStr body.message st)
            | FetchResult.err _ (Except.error e) => Except.error e)
    ∧ (∀ fetch, c.deleteById table id fetch
          = match fetch (c.deleteRequest table [("id", id)]) with
            | FetchResult.abort e => Except.error e
            | FetchResult.ok (Except.ok result) => Except.ok result
            | FetchResult.ok (Except.error e) => Except.error e
            | FetchResult.err st (Except.ok body) =>
                Except.error ("Supabase Error: " ++ jsOrStr body.message st)
            | FetchResult.err _ (Except.error e) => Except.error e) :=
  ⟨fun _ => rfl, fun _ => rfl, fun _ => rfl, fun _ => rfl⟩

/-- Claim C5 (confirmed): for every Filter Set `F`, the URL built by
`buildUrl(table, select, ⟨filters := F⟩)` carries exactly one parameter
`k = eq.v` (value string-coerced) per entry `k → v` of `F`, in insertion
order, and no other parameter. -/
theorem buildUrl_filters_exact (c : SupabaseClient) (table : String)
    (F : List (String × Value)) :
    (c.buildUrl table "select" { emptyOptions with filters := some F }).params
      = F.map (fun kv => (kv.1, "eq." ++ kv.2.render)) := by
  rw [buildUrl_select_params]
  simp [filterPairs, eqParams, selectPairs, orderPairs, limitPairs, offsetPairs, emptyOptions]

/-- Claim C9 (confirmed): `query(table, F, O)` issues the same GET request and
returns the same result as `read(table, O with filters := F)`: the filters
argument overrides any filters already inside the options record
(`{...options, filters: filters}`) and every other option field is preserved
unchanged. -/
theorem query_refines_read (c : SupabaseClient) (table : String)
    (F : List (String × Value)) (o : QueryOptions) :
    (∀ fetch, c.query table F o fetch = c.read table { o with filters := some F } fetch)
    ∧ c.queryRequest table F o = c.readRequest table { o with filters := some F } :=
  ⟨fun _ => rfl, rfl⟩

/-- Claim C1 (amended): `signOut` resets the stored Authorization header to
`Bearer <API key>` and swallows the remote failure exactly when the logout
fetch yields an HTTP response — a success response, or a non-success response
whose error body parses as JSON (the warning is only logged); a
transport-level fetch rejection, or the JSON parse failure of a non-success
body, is rethrown to the caller and the stored headers are left unchanged. -/
theorem signOut_reset_on_http_response (c : SupabaseClient) (tok : Option String)
    (st e : String) (body : ErrorBody) (u : Except String Unit) :
    c.signOut tok (fun _ => FetchResult.ok u)
        = (Except.ok (),
            { c with headers := { c.headers with authorization := "Bearer " ++ c.supabaseKey } })
    ∧ c.signOut tok (fun _ => FetchResult.err st (Except.ok body))
        = (Except.ok (),
            { c with headers := { c.headers with authorization := "Bearer " ++ c.supabaseKey } })
    ∧ c.signOut tok (fun _ => FetchResult.abort e) = (Except.error e, c)
    ∧ c.signOut tok (fun _ => FetchResult.err st (Except.error e)) = (Except.error e, c) :=
  ⟨rfl, rfl, rfl, rfl⟩

/-- Claim C1 (counterexample): on a transport-level failure the catch
block rethrows before the reset line runs, so the signed-in client keeps
`Bearer sess` — not `Bearer anon` as the claim requires — and the failure is
propagated to the caller rather than only logged. -/
theorem signOut_transport_failure_cex :
    ((mkSupabaseClient "https://s.example" "anon").setAuthToken "sess").signOut none
        (fun _ => FetchResult.abort "TypeError: Failed to fetch")
      = (Except.error "TypeError: Failed to fetch",
          (mkSupabaseClient "https://s.example" "anon").setAuthToken "sess")
    ∧ (((mkSupabaseClient "https://s.example" "anon").setAuthToken "sess").headers.authorization
        = "Bearer sess")
    ∧ ("Bearer sess" ≠ "Bearer anon") :=
  ⟨rfl, rfl, by decide⟩

/-- Claim C2 (amended): the stored Authorization header starts as
`Bearer <API key>` at construction, and a successful `signIn` whose response
body carries a nonempty `access_token` replaces it with `Bearer <token>`,
which every subsequent request then carries; a missing or empty
`access_token` on a success response leaves the header unchanged
(`if (result.access_token)` is a JS truthiness test). -/
theorem signIn_token_rotation (url key email password t table : String)
    (c : SupabaseClient) (body : AuthBody) (o : QueryOptions)
    (hbody : body.access_token = some t) (ht : t ≠ "") :
    (mkSupabaseClient url key).headers.authorization = "Bearer " ++ key
    ∧ (c.signIn email password (fun _ => FetchResult.ok (Except.ok body))).2 = c.setAuthToken t
    ∧ (c.setAuthToken t).headers.authorization = "Bearer " ++ t
    ∧ ((c.setAuthToken t).readRequest table o).headers.authorization = "Bearer " ++ t := by
  refine ⟨rfl, ?_, rfl, rfl⟩
  unfold SupabaseClient.signIn
  simp [hbody, ht]

/-- Claim C2 (witness): a concrete successful sign-in whose body carries the
token `tok7` rotates the stored header to `Bearer tok7`. -/
theorem signIn_token_rotation_witness :
    ((mkSupabaseClient "u" "anon").signIn "e" "p"
        (fun _ => FetchResult.ok (Except.ok ({ access_token := some "tok7" } : AuthBody)))).2
      = (mkSupabaseClient "u" "anon").setAuthToken "tok7" := by
  exact (signIn_token_rotation "u" "anon" "e" "p" "tok7" "trips" (mkSupabaseClient "u" "anon")
    { access_token := some "tok7" } emptyOptions rfl (by decide)).2.1

/-- Claim C2 (counterexample): a successful sign-in (HTTP success, parsed
body, call returns `Except.ok`) whose returned `access_token` is the empty
string leaves the stored header at `Bearer anon2`, not at
`Bearer <returned token>` = `Bearer ` as the claim requires. -/
theorem signIn_empty_token_cex :
    ((mkSupabaseClient "u2" "anon2").signIn "e" "p"
        (fun _ => FetchResult.ok (Except.ok ({ access_token := some "" } : AuthBody)))).1
      = Except.ok ({ access_token := some "" } : AuthBody)
    ∧ ((mkSupabaseClient "u2" "anon2").signIn "e" "p"
        (fun _ => FetchResult.ok (Except.ok ({ access_token := some "" } : AuthBody)))).2.headers.authorization
      = "Bearer anon2"
    ∧ ("Bearer anon2" ≠ "Bearer ") :=
  ⟨rfl, rfl, by decide⟩

/-- Filter pairs built from a filter object whose keys all differ from `k`
contribute no parameter named `k`. -/
theorem eqParams_filter_nil (fs : List (String × Value)) (k : String)
    (h : ∀ p ∈ fs, p.1 ≠ k) :
    (eqParams fs).filter (fun p => p.1 == k) = [] := by
  induction fs with
  | nil => rfl
  | cons a t ih =>
    have ha : (a.1 == k) = false := by
      simpa using h a (List.mem_cons_self a t)
    simpa [eqParams, List.filter_cons, ha] using
      ih (fun p hp => h p (List.mem_cons_of_mem a hp))

/-- The optional `filters` option contributes no parameter named `k` when no
filter key equals `k`. -/
theorem filterPairs_filter_nil (fo : Option (List (String × Value))) (k : String)
    (h : ∀ p ∈ fo.getD [], p.1 ≠ k) :
    (filterPairs fo).filter (fun p => p.1 == k) = [] := by
  cases fo with
  | none => rfl
  | some fs => exact eqParams_filter_nil fs k (by simpa using h)

/-- The `select` option only ever contributes a parameter named `select`. -/
theorem selectPairs_filter_ne (s : Option String) (k : String) (hk : k ≠ "select") :
    (selectPairs s).filter (fun p => p.1 == k) = [] := by
  cases s with
  | none => rfl
  | some v =>
    by_cases hv : v = "" <;> simp [selectPairs, hv, Ne.symm hk]

/-- The `order` option only ever contributes a parameter named `order`. -/
theorem orderPairs_filter_ne (o : Option OrderSpec) (k : String) (hk : k ≠ "order") :
    (orderPairs o).filter (fun p => p.1 == k) = [] := by
  cases o with
  | none => rfl
  | some ospec => simp [orderPairs, Ne.symm hk]

/-- The `limit` option only ever contributes a parameter named `limit`. -/
theorem limitPairs_filter_ne (l : Option Int) (k : String) (hk : k ≠ "limit") :
    (limitPairs l).filter (fun p => p.1 == k) = [] := by
  cases l with
  | none => rfl
  | some n => by_cases hn : n = 0 <;> simp [limitPairs, hn, Ne.symm hk]

/-- The `offset` option only ever contributes a parameter named `offset`. -/
theorem offsetPairs_filter_ne (o : Option Int) (k : String) (hk : k ≠ "offset") :
    (offsetPairs o).filter (fun p => p.1 == k) = [] := by
  cases o with
  | none => rfl
  | some n => by_cases hn : n = 0 <;> simp [offsetPairs, hn, Ne.symm hk]

/-- Every pair the `limit` option contributes is named `limit`, so it passes
its own key filter unchanged. -/
theorem limitPairs_filter_self (l : Option Int) :
    (limitPairs l).filter (fun p => p.1 == "limit") = limitPairs l := by
  cases l with
  | none => rfl
  | some n => by_cases hn : n = 0 <;> simp [limitPairs, hn]

/-- Every pair the `offset` option contributes is named `offset`. -/
theorem offsetPairs_filter_self (o : Option Int) :
    (offsetPairs o).filter (fun p => p.1 == "offset") = offsetPairs o := by
  cases o with
  | none => rfl
  | some n => by_cases hn : n = 0 <;> simp [offsetPairs, hn]

/-- Claim C6 (amended): for options whose filter keys do not collide with the
name `order`: when the `order` option is absent the built URL carries no
`order` parameter; when an order object is supplied the URL carries exactly
one parameter `order = <column>.<direction>`, where the column falls back to
`id` and the direction to `asc` when the respective field is missing **or the
empty string** (the source defaults with JS `||`, which also replaces a
present empty-string field). -/
theorem buildUrl_order_param (c : SupabaseClient) (table : String) (o : QueryOptions)
    (hf : ∀ p ∈ o.filters.getD [], p.1 ≠ "order") :
    ((c.buildUrl table "select" { o with order := none }).params.filter
        (fun p => p.1 == "order") = [])
    ∧ ∀ ospec : OrderSpec,
        ((c.buildUrl table "select" { o with order := some ospec }).params.filter
            (fun p => p.1 == "order")
          = [("order", jsOrStr ospec.column "id" ++ "." ++ jsOrStr ospec.direction "asc")]) := by
  constructor
  · rw [buildUrl_select_params]
    simp only [List.filter_append]
    rw [filterPairs_filter_nil _ _ hf, selectPairs_filter_ne _ _ (by decide),
      limitPairs_filter_ne _ _ (by decide), offsetPairs_filter_ne _ _ (by decide)]
    rfl
  · intro ospec
    rw [buildUrl_select_params]
    simp only [List.filter_append]
    rw [filterPairs_filter_nil _ _ hf, selectPairs_filter_ne _ _ (by decide),
      limitPairs_filter_ne _ _ (by decide), offsetPairs_filter_ne _ _ (by decide)]
    simp [orderPairs]

/-- Claim C6 (witness): with a concrete filter set and a fully supplied order
object the built URL carries exactly the parameter `order=date.desc`. -/
theorem buildUrl_order_param_witness :
    ((mkSupabaseClient "https://t" "k").buildUrl "trips" "select"
        { emptyOptions with
            filters := some [("user_id", Value.num 1)]
            order := some ({ column := some "date", direction := some "desc" } : OrderSpec) }).params.filter
        (fun p => p.1 == "order")
      = [("order", "date.desc")] := by
  have h := buildUrl_order_param (mkSupabaseClient "https://t" "k") "trips"
    { emptyOptions with filters := some [("user_id", Value.num 1)] } (by decide)
  simpa [jsOrStr] using
    h.2 ({ column := some "date", direction := some "desc" } : OrderSpec)

/-- Claim C6 (counterexample): with a supplied order object whose `column`
field is present but equals the empty string, the code defaults the column to
`id` and emits `order=id.desc`; the claim, which defaults only when the field
is missing, requires `order=.desc`, which does not appear. -/
theorem buildUrl_order_empty_column_cex :
    ((mkSupabaseClient "https://t6" "k6").buildUrl "trips" "select"
        { emptyOptions with
            order := some ({ column := some "", direction := some "desc" } : OrderSpec) }).params
      = [("order", "id.desc")]
    ∧ ("order", ".desc") ∉ ((mkSupabaseClient "https://t6" "k6").buildUrl "trips" "select"
        { emptyOptions with
            order := some ({ column := some "", direction := some "desc" } : OrderSpec) }).params := by
  decide

/-- Claim C7 (amended): for options whose filter keys do not collide with the
names `limit`/`offset`: a supplied nonzero `limit`/`offset` is appended as
exactly one decimal-integer parameter; the parameter is omitted when the
option is absent, `null`, `undefined` **or the number 0** (the source guards
each append with a JS truthiness test, and `0` is falsy) — in particular a
supplied offset of 0 is omitted, not appended. -/
theorem buildUrl_limit_offset_params (c : SupabaseClient) (table : String)
    (o : QueryOptions)
    (hl : ∀ p ∈ o.filters.getD [], p.1 ≠ "limit")
    (ho : ∀ p ∈ o.filters.getD [], p.1 ≠ "offset") :
    ((c.buildUrl table "select" o).params.filter (fun p => p.1 == "limit")
        = limitPairs o.limit)
    ∧ ((c.buildUrl table "select" o).params.filter (fun p => p.1 == "offset")
        = offsetPairs o.offset)
    ∧ (∀ n : Int, n ≠ 0 → limitPairs (some n) = [("limit", toString n)])
    ∧ (∀ n : Int, n ≠ 0 → offsetPairs (some n) = [("offset", toString n)])
    ∧ limitPairs (some 0) = [] ∧ limitPairs none = []
    ∧ offsetPairs (some 0) = [] ∧ offsetPairs none = [] := by
  refine ⟨?_, ?_, ?_, ?_, rfl, rfl, rfl, rfl⟩
  · rw [buildUrl_select_params]
    simp only [List.filter_append]
    rw [filterPairs_filter_nil _ _ hl, selectPairs_filter_ne _ _ (by decide),
      orderPairs_filter_ne _ _ (by decide), offsetPairs_filter_ne _ _ (by decide),
      limitPairs_filter_self]
    simp
  · rw [buildUrl_select_params]
    simp only [List.filter_append]
    rw [filterPairs_filter_nil _ _ ho, selectPairs_filter_ne _ _ (by decide),
      orderPairs_filter_ne _ _ (by decide), limitPairs_filter_ne _ _ (by decide),
      offsetPairs_filter_self]
    simp
  · intro n hn
    simp [limitPairs, hn]
  · intro n hn
    simp [offsetPairs, hn]

/-- Claim C7 (witness): a concrete options record with `limit = 10` and
`offset = 20` yields exactly the parameters `limit=10` and `offset=20`. -/
theorem buildUrl_limit_offset_params_witness :
    ((mkSupabaseClient "https://t7w" "k7w").buildUrl "trips" "select"
        { emptyOptions with
            filters := some [("user_id", Value.num 1)]
            limit := some 10
            offset := some 20 }).params.filter (fun p => p.1 == "limit")
      = [("limit", "10")]
    ∧ ((mkSupabaseClient "https://t7w" "k7w").buildUrl "trips" "select"
        { emptyOptions with
            filters := some [("user_id", Value.num 1)]
            limit := some 10
            offset := some 20 }).params.filter (fun p => p.1 == "offset")
      = [("offset", "20")] := by
  have h := buildUrl_limit_offset_params (mkSupabaseClient "https://t7w" "k7w") "trips"
    { emptyOptions with
        filters := some [("user_id", Value.num 1)]
        limit := some 10
        offset := some 20 } (by decide) (by decide)
  exact ⟨h.1.trans (by decide), h.2.1.trans (by decide)⟩

/-- Claim C7 (counterexample): a supplied offset of 0 is dropped by the JS
truthiness guard `if (options.offset)`: the built URL has no parameters at
all, while the claim requires the parameter `offset=0` to appear. -/
theorem buildUrl_offset_zero_cex :
    ((mkSupabaseClient "https://t7" "k7").buildUrl "trips" "select"
        { emptyOptions with offset := some 0 }).params = []
    ∧ ("offset", "0") ∉ ((mkSupabaseClient "https://t7" "k7").buildUrl "trips" "select"
        { emptyOptions with offset := some 0 }).params := by
  decide

/-- Claim C8 (amended): for every CRUD operation — read, query, insert,
insertMany, update, delete and the by-id forms — an HTTP success status
yields the parsed JSON body as the return value; an HTTP failure status whose
body parses as JSON raises `Supabase Error: <message>`, where `<message>` is
the `message` field of the body when that field is present and nonempty and the
raw status text otherwise; an HTTP failure status whose body does **not**
parse propagates the JSON parse error itself (the status text is never
consulted on that path).  The table/operation context is only written to the
console log, not attached to the raised error. -/
theorem crud_response_classification (c : SupabaseClient) (table : String)
    (o : QueryOptions) (F : List (String × Value)) (idv : Value)
    (row patch : Rec) (rows d : List Rec) (st e m : String) (body : ErrorBody) :
    (m ≠ "" → jsOrStr (some m) st = m)
    ∧ jsOrStr none st = st
    ∧ c.read table o (fun _ => FetchResult.ok (Except.ok d)) = Except.ok d
    ∧ c.read table o (fun _ => FetchResult.err st (Except.ok body))
        = Except.error ("Supabase Error: " ++ jsOrStr body.message st)
    ∧ c.read table o (fun _ => FetchResult.err st (Except.error e)) = Except.error e
    ∧ c.query table F o (fun _ => FetchResult.ok (Except.ok d)) = Except.ok d
    ∧ c.query table F o (fun _ => FetchResult.err st (Except.ok body))
        = Except.error ("Supabase Error: " ++ jsOrStr body.message st)
    ∧ c.query table F o (fun _ => FetchResult.err st (Except.error e)) = Except.error e
    ∧ c.insert table row (fun _ => FetchResult.ok (Except.ok d)) = Except.ok d
    ∧ c.insert table row (fun _ => FetchResult.err st (Except.ok body))
        = Except.error ("Supabase Error: " ++ jsOrStr body.message st)
    ∧ c.insert table row (fun _ => FetchResult.err st (Except.error e)) = Except.error e
    ∧ c.insertMany table rows (fun _ => FetchResult.ok (Except.ok d)) = Except.ok d
    ∧ c.insertMany table rows (fun _ => FetchResult.err st (Except.ok body))
        = Except.error ("Supabase Error: " ++ jsOrStr body.message st)
    ∧ c.insertMany table rows (fun _ => FetchResult.err st (Except.error e)) = Except.error e
    ∧ c.update table F patch (fun _ => FetchResult.ok (Except.ok d)) = Except.ok d
    ∧ c.update table F patch (fun _ => FetchResult.err st (Except.ok body))
        = Except.error ("Supabase Error: " ++ jsOrStr body.message st)
    ∧ c.update table F patch (fun _ => FetchResult.err st (Except.error e)) = Except.error e
    ∧ c.delete table F (fun _ => FetchResult.ok (Except.ok d)) = Except.ok d
    ∧ c.delete table F (fun _ => FetchResult.err st (Except.ok body))
        = Except.error ("Supabase Error: " ++ jsOrStr body.message st)
    ∧ c.delete table F (fun _ => FetchResult.err st (Except.error e)) = Except.error e
    ∧ c.updateById table idv patch (fun _ => FetchResult.ok (Except.ok d)) = Except.ok d
    ∧ c.updateById table idv patch (fun _ => FetchResult.err st (Except.ok body))
        = Except.error ("Supabase Error: " ++ jsOrStr body.message st)
    ∧ c.updateById table idv patch (fun _ => FetchResult.err st (Except.error e))
        = Except.error e
    ∧ c.deleteById table idv (fun _ => FetchResult.ok (Except.ok d)) = Except.ok d
    ∧ c.deleteById table idv (fun _ => FetchResult.err st (Except.ok body))
        = Except.error ("Supabase Error: " ++ jsOrStr body.message st)
    ∧ c.deleteById table idv (fun _ => FetchResult.err st (Except.error e)) = Except.error e := by
  refine ⟨fun hm => by simp [jsOrStr, hm], rfl, rfl, rfl, rfl, rfl, rfl, rfl, rfl, rfl, rfl,
    rfl, rfl, rfl, rfl, rfl, rfl, rfl, rfl, rfl, rfl, rfl, rfl, rfl, rfl, rfl⟩

/-- Claim C8 (witness): a concrete insert against HTTP 400 with body message
`duplicate nickname` raises `Supabase Error: duplicate nickname`. -/
theorem crud_response_classification_witness :
    jsOrStr (some "duplicate nickname") "Bad Request" = "duplicate nickname"
    ∧ (mkSupabaseClient "u8" "k8").insert "users" []
        (fun _ => FetchResult.err "Bad Request"
          (Except.ok ({ message := some "duplicate nickname"
                        msg := none
                        error_description := none } : ErrorBody)))
      = Except.error "Supabase Error: duplicate nickname" := by
  obtain ⟨h1, _, _, _, _, _, _, _, _, h10, _⟩ :=
    crud_response_classification (mkSupabaseClient "u8" "k8") "users" emptyOptions []
      (Value.num 1) [] [] [] [] "Bad Request" "boom" "duplicate nickname"
      { message := some "duplicate nickname", msg := none, error_description := none }
  exact ⟨h1 (by decide), h10.trans rfl⟩

/-- Claim C8 (counterexample): on an HTTP failure whose body does not parse,
`await response.json()` throws and the catch block rethrows that parse error:
the raised message is the parse error itself, containing neither the raw
status text (the claim requires it) nor the table context; and even in the
parsed case the raised message carries no table/operation context. -/
theorem crud_unparseable_error_cex :
    (mkSupabaseClient "u8c" "k8c").insert "users" []
        (fun _ => FetchResult.err "Bad Request" (Except.error "SyntaxError: Unexpected token"))
      = Except.error "SyntaxError: Unexpected token"
    ∧ strContains "SyntaxError: Unexpected token" "Bad Request" = false
    ∧ (mkSupabaseClient "u8c" "k8c").insert "users" []
        (fun _ => FetchResult.err "Bad Request"
          (Except.ok ({ message := some "duplicate nickname"
                        msg := none
                        error_description := none } : ErrorBody)))
      = Except.error "Supabase Error: duplicate nickname"
    ∧ strContains "Supabase Error: duplicate nickname" "users" = false := by
  refine ⟨rfl, by decide, rfl, by decide⟩

/-- Claim C10 (amended): `signOut(t)` with an explicit nonempty token `t`
sends the logout request with `Authorization: Bearer t` while apikey,
Content-Type and Prefer are sent unchanged; the substitution happens on a
spread copy, so the stored header map of the client is never set to `Bearer t`
(afterwards the stored Authorization is either reset to `Bearer <API key>` —
which happens exactly when an HTTP response was received and, on non-success,
its body parsed — or, on a rethrown transport/parse failure, left at its
previous value). -/
theorem signOut_explicit_token_frame (c : SupabaseClient) (t : String)
    (ht : t ≠ "")
    (hk : "Bearer " ++ c.supabaseKey ≠ "Bearer " ++ t)
    (ha : c.headers.authorization ≠ "Bearer " ++ t) :
    (c.signOutRequest (some t)).headers.authorization = "Bearer " ++ t
    ∧ (c.signOutRequest (some t)).headers.apikey = c.headers.apikey
    ∧ (c.signOutRequest (some t)).headers.contentType = c.headers.contentType
    ∧ (c.signOutRequest (some t)).headers.prefer = c.headers.prefer
    ∧ (∀ f, (c.signOut (some t) f).2.headers.authorization = "Bearer " ++ c.supabaseKey
          ∨ (c.signOut (some t) f).2 = c)
    ∧ (∀ f, (c.signOut (some t) f).2.headers.authorization ≠ "Bearer " ++ t)
    ∧ (∀ f u, f (c.signOutRequest (some t)) = FetchResult.ok u
          → (c.signOut (some t) f).2.headers.authorization = "Bearer " ++ c.supabaseKey) := by
  have hcases : ∀ f, (c.signOut (some t) f).2.headers.authorization
      = "Bearer " ++ c.supabaseKey ∨ (c.signOut (some t) f).2 = c := by
    intro f
    unfold SupabaseClient.signOut
    cases hfr : f (c.signOutRequest (some t)) with
    | abort e => exact Or.inr rfl
    | ok u => exact Or.inl rfl
    | err st p =>
      cases p with
      | ok b => exact Or.inl rfl
      | error e => exact Or.inr rfl
  refine ⟨by simp [SupabaseClient.signOutRequest, ht], by simp [SupabaseClient.signOutRequest, ht],
    by simp [SupabaseClient.signOutRequest, ht], by simp [SupabaseClient.signOutRequest, ht],
    hcases, ?_, ?_⟩
  · intro f
    rcases hcases f with h | h
    · rw [h]; exact hk
    · rw [h]; exact ha
  · intro f u hfu
    unfold SupabaseClient.signOut
    rw [hfu]

/-- Claim C10 (witness): with a concrete client and the explicit token
`tok10`, the logout request carries `Bearer tok10` while the apikey header is
the stored one. -/
theorem signOut_explicit_token_frame_witness :
    ((mkSupabaseClient "u10" "k10").signOutRequest (some "tok10")).headers.authorization
      = "Bearer tok10"
    ∧ ((mkSupabaseClient "u10" "k10").signOutRequest (some "tok10")).headers.apikey
      = "k10" := by
  have h := signOut_explicit_token_frame (mkSupabaseClient "u10" "k10") "tok10"
    (by decide) (by decide) (by decide)
  exact ⟨h.1.trans (by decide), h.2.1.trans (by decide)⟩

/-- Claim C10 (counterexample): on a transport failure the rethrow skips the
reset line, so after `signOut(tok10)` the stored Authorization is still
`Bearer old10`, not `Bearer anon10` = `Bearer <API key>` as the claim
requires; and with an explicit but empty token the Authorization sent is
the stored `Bearer old10`, not `Bearer <passed token>`. -/
theorem signOut_stored_header_cex :
    (((mkSupabaseClient "https://s10" "anon10").setAuthToken "old10").signOut (some "tok10")
        (fun _ => FetchResult.abort "net down")).2.headers.authorization = "Bearer old10"
    ∧ ("Bearer old10" ≠ "Bearer anon10")
    ∧ (((mkSupabaseClient "https://s10" "anon10").setAuthToken "old10").signOutRequest
        (some "")).headers.authorization = "Bearer old10" :=
  ⟨rfl, by decide, rfl⟩

end Supabase
